import Mathlib

/-!
Shallow embedding of the SNMP configuration-compliance pipeline (`src/dnac.py`).

Python strings are modelled as Lean `String`; Python `needle in haystack` is
substring containment; `str.strip()` drops leading/trailing whitespace.
Python dicts that the script builds by insertion (`target_devices`) are
modelled as association lists in insertion order, and the optional
`"bad_config"` key as an `Option` field.  Poll loops that query a remote
status each iteration are modelled as functions over the (finite) list of
successive remote responses, returning how many queries were made together
with what the loop produced; `none` for the final payload means the loop was
still running when the modelled response sequence was exhausted.
-/

namespace Dnac

/-- Python `needle in haystack` for strings: substring containment. -/
def pyIn (needle haystack : String) : Bool :=
  decide (needle.toList <:+: haystack.toList)

/-- Python `str.strip()`: remove leading and trailing whitespace. -/
def pyStrip (s : String) : String :=
  ⟨((s.toList.dropWhile Char.isWhitespace).reverse.dropWhile Char.isWhitespace).reverse⟩

/-! ### Task Poller (`checkTaskStatus`, src/dnac.py lines 98-119) -/

/-- One task-status payload returned by `dnac.task.get_task_by_id`.
`endTime` is `none` for JSON null; Python truthiness of the field is
`pyTruthy`. -/
structure TaskStatus where
  progress : String
  endTime : Option Nat
  deriving DecidableEq, Repr

/-- Python truthiness of an optional integer field (`None` and `0` are falsy). -/
def pyTruthy : Option Nat → Bool
  | none => false
  | some t => t != 0

/-- `checkTaskStatus` (lines 108-119): poll until the response's `endTime`
is truthy, then return that payload.  Input: the successive responses to the
status queries.  Output: `some (n, r)` when the loop returns payload `r`
after `n` queries; `none` when every listed response was consumed without a
truthy `endTime` (the real loop would still be polling). -/
def checkTaskStatus : List TaskStatus → Option (Nat × TaskStatus)
  | [] => none
  | s :: rest =>
    if pyTruthy s.endTime then some (1, s)
    else
      match checkTaskStatus rest with
      | some (n, r) => some (n + 1, r)
      | none => none

/-! ### Config Validator (`validate_snmp_config`, src/dnac.py lines 166-208) -/

/-- `validate_snmp_config` (lines 184-208), applied to the lines of the
device's running-config file: a line whose stripped form contains
`"snmp-server host"` is kept (stripped) in `bad_config` unless the line
contains both `VALID_SNMP_SERVER_HOST` and `VALID_SNMP_SERVER_COMMUNITY`. -/
def validate_snmp_config (host community : String) : List String → List String
  | [] => []
  | line :: rest =>
    if pyIn "snmp-server host" (pyStrip line) then
      if pyIn host line && pyIn community line then
        validate_snmp_config host community rest
      else
        pyStrip line :: validate_snmp_config host community rest
    else
      validate_snmp_config host community rest

example :
    validate_snmp_config "10.0.0.2" "public"
      ["hostname sw1", "snmp-server host 10.0.0.1 community wrongcomm",
       " snmp-server host 10.0.0.2 community public "] =
      ["snmp-server host 10.0.0.1 community wrongcomm"] := by decide

/-! ### Template Synthesizer (`generateTemplatePayload`, src/dnac.py lines 229-260) -/

/-- One value of the `target_devices` dict: the controller-assigned `"id"`
and, when `run` attached one, the `"bad_config"` list of findings.
`bad_config = none` models absence of the key. -/
structure DeviceRecord where
  id : String
  bad_config : Option (List String)
  deriving DecidableEq, Repr

/-- The guard-open line emitted for a device (line 249 of the source). -/
def guardOpen (device : String) : String :=
  "#if($device_ip == '" ++ device ++ "')"

/-- The per-device loop of `generateTemplatePayload` (lines 245-255): for
each device whose record carries a `bad_config` key, emit the guard-open
line, one `no <line>` removal per finding, the `#end` terminator, and a
blank separator; devices without the key contribute nothing. -/
def templateBlocks : List (String × DeviceRecord) → List String
  | [] => []
  | (device, rec) :: rest =>
    (match rec.bad_config with
     | some bc => guardOpen device :: (bc.map (fun c => "no " ++ c) ++ ["#end", ""])
     | none => []) ++ templateBlocks rest

/-- `generateTemplatePayload` (lines 243-258): the per-device blocks, then
exactly one trailing `NEW_CONFIG` line, joined with newlines. -/
def generateTemplatePayload (NEW_CONFIG : String) (device_list : List (String × DeviceRecord)) : String :=
  String.intercalate "\n" (templateBlocks device_list ++ [NEW_CONFIG])

/-! ### The validation loop of `run` (src/dnac.py lines 411-425) -/

/-- One element of `deployable_devices` (lines 419-425). -/
structure DeployTarget where
  id : String
  type : String
  params_device_ip : String
  deriving DecidableEq, Repr

/-- The `for device in target_devices` loop of `run` (lines 411-425).
Input: `target_devices` as the insertion-ordered list of
(management address, controller id) pairs, plus the extracted running-config
lines of each device (`config`).  For every device it runs
`validate_snmp_config`, attaches the findings under `bad_config` only when
they are non-empty (Python `if result:`), and unconditionally appends the
device to `deployable_devices`.  Returns the updated records and the
deployable-device list. -/
def runValidationLoop (host community : String) (config : String → List String) :
    List (String × String) → List (String × DeviceRecord) × List DeployTarget
  | [] => ([], [])
  | d :: rest =>
    let result := validate_snmp_config host community (config d.1)
    let tail := runValidationLoop host community config rest
    ((d.1, ⟨d.2, if result = [] then none else some result⟩) :: tail.1,
     ⟨d.1, "MANAGED_DEVICE_IP", d.1⟩ :: tail.2)

/-! ### Deployment Tracker (`deployTemplate`, src/dnac.py lines 315-348) -/

/-- One deployment-status payload returned by
`get_template_deployment_status`. -/
structure DeployResponse where
  status : String
  deriving DecidableEq, Repr

/-- The `while True` monitor loop of `deployTemplate` (lines 336-348): each
iteration queries the deployment status; on `"SUCCESS"` it breaks, on
`"FAILURE"` it pretty-prints the payload and keeps looping, on anything else
it just keeps looping.  Input: the successive query responses.  Output:
(number of queries made, failure payloads reported, `some r` when the loop
broke on a `"SUCCESS"` payload `r` / `none` when the listed responses were
exhausted with the loop still running). -/
def deployTemplatePoll : List DeployResponse → Nat × List DeployResponse × Option DeployResponse
  | [] => (0, [], none)
  | r :: rest =>
    if r.status = "SUCCESS" then (1, [], some r)
    else
      let tail := deployTemplatePoll rest
      (tail.1 + 1, (if r.status = "FAILURE" then [r] else []) ++ tail.2.1, tail.2.2)

/-! ### Archive Extractor scan (`unzipConfigFile`, src/dnac.py lines 140-163) -/

/-- The directory scan of `unzipConfigFile` (lines 151-154): iterate over
`os.listdir()` and bind `target_file` to every filename containing
`"Export_Configs"`, so the last match wins; `none` models `target_file`
never being bound (the subsequent open raises `NameError`). -/
def unzipScan (directory : List String) : Option String :=
  directory.foldl (fun acc file => if pyIn "Export_Configs" file then some file else acc) none

/-! ### Archive passphrase (`ARCHIVE_SECRET`, src/dnac.py lines 75-78) -/

/-- Python's `string.ascii_letters`. -/
def ascii_letters : String :=
  "abcdefghijklmnopqrstuvwxyzABCDEFGHIJKLMNOPQRSTUVWXYZ"

/-- Python's `string.digits`. -/
def digits : String := "0123456789"

/-- `ARCHIVE_SECRET` (lines 75-78): sixteen characters drawn by
`secrets.choice` from `string.ascii_letters + string.digits`, then the fixed
`"!"` suffix.  The sampler is modelled as a function `choice` giving the
sixteen drawn characters; membership of each draw in the alphabet is a
hypothesis of the theorems. -/
def ARCHIVE_SECRET (choice : Fin 16 → Char) : String :=
  ⟨(List.finRange 16).map choice⟩ ++ "!"

/-! ## Claim theorems -/

/-- C5: the Task Poller returns exactly the first status payload whose
completion timestamp is set (truthy `endTime`), after exactly as many
status queries as that payload's position, and performs no further queries
after it: the result is independent of everything after the first terminal
payload, and the query count equals its position. -/
theorem checkTaskStatus_first_terminal (pre : List TaskStatus) (r : TaskStatus)
    (post : List TaskStatus) (hpre : ∀ s ∈ pre, pyTruthy s.endTime = false)
    (hr : pyTruthy r.endTime = true) :
    checkTaskStatus (pre ++ r :: post) = some (pre.length + 1, r) := by
  induction pre with
  | nil => simp [checkTaskStatus, hr]
  | cons a l ih =>
    have ha : pyTruthy a.endTime = false := hpre a (by simp)
    have hl : checkTaskStatus (l ++ r :: post) = some (l.length + 1, r) :=
      ih (fun s hs => hpre s (by simp [hs]))
    simp [checkTaskStatus, ha, hl]

/-- Witness for C5: `endTime` set on the third poll is returned after
exactly three queries, whatever would have come afterwards. -/
theorem checkTaskStatus_first_terminal_witness :
    checkTaskStatus
      [⟨"In Progress", none⟩, ⟨"In Progress", some 0⟩, ⟨"Done", some 5⟩,
       ⟨"Done", some 7⟩] = some (3, ⟨"Done", some 5⟩) :=
  checkTaskStatus_first_terminal
    [⟨"In Progress", none⟩, ⟨"In Progress", some 0⟩] ⟨"Done", some 5⟩
    [⟨"Done", some 7⟩] (by decide) (by decide)

/-- C6: the Template Synthesizer is deterministic — two runs on equal
device-record mappings (same devices in the same order, same findings) and
equal corrective directives produce byte-identical template text. -/
theorem generateTemplatePayload_deterministic (NEW₁ NEW₂ : String)
    (dl₁ dl₂ : List (String × DeviceRecord)) (hN : NEW₁ = NEW₂) (hd : dl₁ = dl₂) :
    generateTemplatePayload NEW₁ dl₁ = generateTemplatePayload NEW₂ dl₂ := by
  rw [hN, hd]

/-- Witness for C6 at a concrete mapping and directive. -/
theorem generateTemplatePayload_deterministic_witness :
    generateTemplatePayload "snmp-server host 10.0.0.2 public"
        [("10.0.0.1", ⟨"uuid-1", some ["snmp-server host 9.9.9.9 c"]⟩)] =
      generateTemplatePayload "snmp-server host 10.0.0.2 public"
        [("10.0.0.1", ⟨"uuid-1", some ["snmp-server host 9.9.9.9 c"]⟩)] :=
  generateTemplatePayload_deterministic _ _ _ _ rfl rfl

/-- C9: when no device record carries findings, no guard block is emitted
and the synthesized template is exactly the corrective directive. -/
theorem generateTemplatePayload_no_findings (NEW : String)
    (dl : List (String × DeviceRecord)) (h : ∀ p ∈ dl, p.2.bad_config = none) :
    generateTemplatePayload NEW dl = NEW := by
  have hb : templateBlocks dl = [] := by
    induction dl with
    | nil => rfl
    | cons p rest ih =>
      have hp := h p (by simp)
      simp only [templateBlocks, hp, List.nil_append]
      exact ih (fun q hq => h q (by simp [hq]))
  simp [generateTemplatePayload, hb, String.intercalate, String.intercalate.go]

/-- Witness for C9: two finding-free devices produce just the directive. -/
theorem generateTemplatePayload_no_findings_witness :
    generateTemplatePayload "snmp-server host 10.0.0.2 public"
        [("10.0.0.1", ⟨"uuid-1", none⟩), ("10.0.0.5", ⟨"uuid-2", none⟩)] =
      "snmp-server host 10.0.0.2 public" :=
  generateTemplatePayload_no_findings _ _ (by decide)

/-- C1 (code evaluation): the Deployment Tracker's loop keeps querying
after a FAILURE response.  After the poll sequence SUBMITTED, SUBMITTED,
FAILURE the loop has reported the failure payload but, for every
continuation of the status sequence, still performs one further query per
response: the loop breaks only on SUCCESS. -/
theorem deployTemplatePoll_keeps_polling_after_failure (post : List DeployResponse) :
    deployTemplatePoll ([⟨"SUBMITTED"⟩, ⟨"SUBMITTED"⟩, ⟨"FAILURE"⟩] ++ post) =
      (3 + (deployTemplatePoll post).1,
       ⟨"FAILURE"⟩ :: (deployTemplatePoll post).2.1,
       (deployTemplatePoll post).2.2) := by
  have h1 : ¬(("SUBMITTED" : String) = "SUCCESS") := by decide
  have h2 : ¬(("FAILURE" : String) = "SUCCESS") := by decide
  have h3 : ¬(("SUBMITTED" : String) = "FAILURE") := by decide
  simp [deployTemplatePoll, h1, h2, h3]
  omega

/-- C2: the Config Validator's output is exactly the selected lines (those
whose stripped form contains the `"snmp-server host"` keyword) that fail
the compliance test (containment of both the expected host and the expected
community substrings in the line), each stripped of surrounding whitespace,
in input order.  In particular a selected line is classified compliant —
contributes nothing — iff it contains both substrings, and every selected
line missing either substring appears stripped in the returned list. -/
theorem validate_snmp_config_spec (host community : String) (lines : List String) :
    validate_snmp_config host community lines =
      (lines.filter (fun l =>
        pyIn "snmp-server host" (pyStrip l) && !(pyIn host l && pyIn community l))).map
        pyStrip := by
  induction lines with
  | nil => rfl
  | cons line rest ih =>
    simp only [validate_snmp_config, List.filter_cons]
    cases h1 : pyIn "snmp-server host" (pyStrip line) with
    | false => simp [h1, ih]
    | true =>
      cases h2 : pyIn host line && pyIn community line with
      | true => simp [h1, h2, ih]
      | false => simp [h1, h2, ih]

/-- Every character of `string.ascii_letters + string.digits` is
alphanumeric. -/
theorem alphabet_isAlphanum : ∀ c ∈ (ascii_letters ++ digits).toList, c.isAlphanum = true := by
  decide

/-- C8: whatever the sampler drew (each draw taken from
`ascii_letters + digits`), the generated passphrase has 17 characters: the
first 16 are drawn from the ASCII letters and digits (hence alphanumeric)
and the final character is the fixed suffix `!`, the only non-alphanumeric
one. -/
theorem ARCHIVE_SECRET_shape (choice : Fin 16 → Char)
    (h : ∀ i, choice i ∈ (ascii_letters ++ digits).toList) :
    (ARCHIVE_SECRET choice).toList.length = 17 ∧
    (ARCHIVE_SECRET choice).toList.getLast? = some '!' ∧
    (∀ c ∈ (ARCHIVE_SECRET choice).toList.dropLast,
      c ∈ (ascii_letters ++ digits).toList ∧ c.isAlphanum = true) ∧
    ('!').isAlphanum = false := by
  have hdata : (ARCHIVE_SECRET choice).toList = (List.finRange 16).map choice ++ ['!'] := rfl
  refine ⟨?_, ?_, ?_, by decide⟩
  · rw [hdata]; simp
  · rw [hdata]; exact List.getLast?_concat _
  · rw [hdata, List.dropLast_concat]
    intro c hc
    obtain ⟨i, _, rfl⟩ := List.mem_map.mp hc
    exact ⟨h i, alphabet_isAlphanum _ (h i)⟩

/-- Witness for C8 at a concrete (constant) sampler. -/
theorem ARCHIVE_SECRET_shape_witness :
    (ARCHIVE_SECRET fun _ => 'a').toList.length = 17 ∧
    (ARCHIVE_SECRET fun _ => 'a').toList.getLast? = some '!' ∧
    (∀ c ∈ (ARCHIVE_SECRET fun _ => 'a').toList.dropLast,
      c ∈ (ascii_letters ++ digits).toList ∧ c.isAlphanum = true) ∧
    ('!').isAlphanum = false :=
  ARCHIVE_SECRET_shape (fun _ => 'a') (by decide)

/-- C10: the deployable-device list built by `run`'s validation loop has
one entry per enumerated device, in order — independent of the validation
outcome, so devices with zero non-compliant lines are included — and each
entry is keyed by the device's management IP with `MANAGED_DEVICE_IP`
binding and a parameter map holding that same address. -/
theorem deployable_devices_complete (host community : String)
    (config : String → List String) (devices : List (String × String)) :
    (runValidationLoop host community config devices).2 =
      devices.map (fun d => ⟨d.1, "MANAGED_DEVICE_IP", d.1⟩) := by
  induction devices with
  | nil => rfl
  | cons d rest ih => simp [runValidationLoop, ih]

/-- The archive scan keeps overwriting its accumulator on every match. -/
theorem unzipScan_foldl (l : List String) (acc : Option String) :
    l.foldl (fun acc file => if pyIn "Export_Configs" file then some file else acc) acc =
      ((l.filter (fun f => pyIn "Export_Configs" f)).getLast?).or acc := by
  induction l generalizing acc with
  | nil => simp
  | cons a l ih =>
    simp only [List.foldl_cons, List.filter_cons]
    cases ha : pyIn "Export_Configs" a with
    | false => simp [ha, ih]
    | true =>
      rw [ih]
      have hlast : (a :: l.filter (fun f => pyIn "Export_Configs" f)).getLast? =
          ((l.filter (fun f => pyIn "Export_Configs" f)).getLast?).or (some a) := by
        rw [show (a :: l.filter (fun f => pyIn "Export_Configs" f)) =
          [a] ++ l.filter (fun f => pyIn "Export_Configs" f) from rfl, List.getLast?_append]
        rfl
      have hif1 : (if true = true then some a else acc) = some a := if_pos rfl
      have hif2 : (if true = true then a :: l.filter (fun f => pyIn "Export_Configs" f)
          else l.filter (fun f => pyIn "Export_Configs" f)) =
          a :: l.filter (fun f => pyIn "Export_Configs" f) := if_pos rfl
      rw [hif1, hif2, hlast]
      cases (l.filter (fun f => pyIn "Export_Configs" f)).getLast? <;> simp [Option.or]

/-- C7 (amended): the Archive Extractor's scan never surfaces an ambiguity
error.  It resolves to the last filename containing the `"Export_Configs"`
marker in listing order: with zero matches `target_file` is never bound
(`none`, so the subsequent open fails with an unbound-variable error), and
with one or more matches — however many — the last match is silently
selected and extraction proceeds. -/
theorem unzipScan_last_match (directory : List String) :
    unzipScan directory = (directory.filter (fun f => pyIn "Export_Configs" f)).getLast? := by
  rw [unzipScan, unzipScan_foldl]
  cases (directory.filter (fun f => pyIn "Export_Configs" f)).getLast? <;> rfl

/-- Counterexample to C7 as stated: a directory holding two files that both
contain the marker substring produces no error — the scan silently selects
the later file. -/
theorem unzipScan_multi_match_counterexample :
    (pyIn "Export_Configs" "Export_Configs_A.zip" = true) ∧
    (pyIn "Export_Configs" "Export_Configs_B.zip" = true) ∧
    unzipScan ["Export_Configs_A.zip", "Export_Configs_B.zip"] =
      some "Export_Configs_B.zip" := by
  decide

/-! ### Guard-line lemmas for C3 and C4 -/

/-- Two guard-open lines coincide only for the same device address. -/
theorem guardOpen_inj {a b : String} (h : guardOpen a = guardOpen b) : a = b := by
  have hd : ("#if($device_ip == '" : String).data ++ a.data ++ ("')" : String).data =
      ("#if($device_ip == '" : String).data ++ b.data ++ ("')" : String).data := by
    simpa [guardOpen, String.data_append] using congrArg String.data h
  exact String.ext (List.append_cancel_left (List.append_cancel_right hd))

/-- A guard-open line is never a removal directive. -/
theorem guardOpen_ne_no (a c : String) : guardOpen a ≠ "no " ++ c := by
  intro h
  have : some '#' = some 'n' := congrArg (fun s => s.data.head?) h
  simp at this

/-- A guard-open line is never the guard terminator. -/
theorem guardOpen_ne_end (a : String) : guardOpen a ≠ "#end" := by
  intro h
  have : some 'i' = some 'e' := congrArg (fun s => s.data.get? 1) h
  simp at this

/-- A guard-open line is never the blank separator. -/
theorem guardOpen_ne_blank (a : String) : guardOpen a ≠ "" := by
  intro h
  have : some '#' = (none : Option Char) := congrArg (fun s => s.data.head?) h
  simp at this

/-- A guard-open line occurs among the synthesized blocks only for a device
of the mapping that carries a `bad_config` key. -/
theorem templateBlocks_guardOpen_mem {addr : String} {dl : List (String × DeviceRecord)}
    (h : guardOpen addr ∈ templateBlocks dl) :
    ∃ rec bc, (addr, rec) ∈ dl ∧ rec.bad_config = some bc := by
  induction dl with
  | nil => simp [templateBlocks] at h
  | cons p rest ih =>
    obtain ⟨device, rec⟩ := p
    cases hbc : rec.bad_config with
    | none =>
      rw [templateBlocks, hbc] at h
      simp only [List.nil_append] at h
      obtain ⟨r, bc, hr, hb⟩ := ih h
      exact ⟨r, bc, List.mem_cons_of_mem _ hr, hb⟩
    | some bc =>
      rw [templateBlocks, hbc] at h
      rcases List.mem_append.mp h with hblock | hrest
      · rcases List.mem_cons.mp hblock with hg | hmid
        · exact ⟨rec, bc, by rw [guardOpen_inj hg]; exact List.mem_cons_self _ _, hbc⟩
        · rcases List.mem_append.mp hmid with hno | htail
          · obtain ⟨c, _, hc⟩ := List.mem_map.mp hno
            exact absurd hc.symm (guardOpen_ne_no addr c)
          · rcases List.mem_cons.mp htail with hend | hblank
            · exact absurd hend (guardOpen_ne_end addr)
            · rw [List.mem_singleton] at hblank
              exact absurd hblank (guardOpen_ne_blank addr)
      · obtain ⟨r, bc2, hr, hb⟩ := ih hrest
        exact ⟨r, bc2, List.mem_cons_of_mem _ hr, hb⟩

/-- Conversely, every device of the mapping carrying a `bad_config` key
gets its guard-open line emitted. -/
theorem guardOpen_mem_templateBlocks {addr : String} {rec : DeviceRecord} {bc : List String}
    {dl : List (String × DeviceRecord)} (hmem : (addr, rec) ∈ dl)
    (hbc : rec.bad_config = some bc) : guardOpen addr ∈ templateBlocks dl := by
  induction dl with
  | nil => cases hmem
  | cons p rest ih =>
    rcases List.mem_cons.mp hmem with heq | htail
    · rw [templateBlocks, ← heq, hbc]
      exact List.mem_cons_self _ _
    · rw [templateBlocks]
      exact List.mem_append_right _ (ih htail)

/-! ### Record lemmas for C3 -/

/-- Any record the validation loop stores under an address carries exactly
the findings `validate_snmp_config` computes for that address, attached
only when non-empty. -/
theorem runValidationLoop_records_bad_config {host community : String}
    {config : String → List String} {devices : List (String × String)}
    {addr : String} {rec : DeviceRecord}
    (h : (addr, rec) ∈ (runValidationLoop host community config devices).1) :
    rec.bad_config =
      if validate_snmp_config host community (config addr) = [] then none
      else some (validate_snmp_config host community (config addr)) := by
  induction devices with
  | nil => cases h
  | cons d rest ih =>
    rw [runValidationLoop] at h
    rcases List.mem_cons.mp h with heq | htail
    · injection heq with h1 h2
      subst h1
      rw [h2]
    · exact ih htail

/-- Every enumerated device gets a record whose `bad_config` is attached
exactly when its findings are non-empty. -/
theorem runValidationLoop_records_of_mem (host community : String)
    (config : String → List String) {devices : List (String × String)}
    {addr id : String} (h : (addr, id) ∈ devices) :
    (addr, (⟨id, if validate_snmp_config host community (config addr) = [] then none
      else some (validate_snmp_config host community (config addr))⟩ : DeviceRecord)) ∈
      (runValidationLoop host community config devices).1 := by
  induction devices with
  | nil => cases h
  | cons d rest ih =>
    rw [runValidationLoop]
    rcases List.mem_cons.mp h with heq | htail
    · subst heq
      exact List.mem_cons_self _ _
    · exact List.mem_cons_of_mem _ (ih htail)

/-- C3: for the device-record mapping built by the pipeline's validation
loop, a device's address appears in a guard clause of the synthesized
template (its guard-open line occurs among the emitted blocks) iff its
validation found at least one non-compliant configuration line; a device
with an empty findings list never opens a guard block. -/
theorem guard_block_iff_noncompliant (host community : String)
    (config : String → List String) (devices : List (String × String))
    (addr id : String) (hmem : (addr, id) ∈ devices) :
    guardOpen addr ∈ templateBlocks (runValidationLoop host community config devices).1 ↔
      validate_snmp_config host community (config addr) ≠ [] := by
  constructor
  · intro hg hempty
    obtain ⟨rec, bc, hrec, hbc⟩ := templateBlocks_guardOpen_mem hg
    have hb := runValidationLoop_records_bad_config hrec
    rw [hbc, if_pos hempty] at hb
    exact Option.noConfusion hb
  · intro hne
    have hrec := runValidationLoop_records_of_mem host community config hmem
    rw [if_neg hne] at hrec
    exact guardOpen_mem_templateBlocks hrec rfl

/-- Witness for C3: a device whose config export holds one wrong SNMP host
line gets a guard block keyed to its own address. -/
theorem guard_block_iff_noncompliant_witness :
    guardOpen "10.0.0.1" ∈ templateBlocks (runValidationLoop "10.0.0.2" "public"
      (fun _ => ["snmp-server host 10.0.0.1 community wrongcomm"])
      [("10.0.0.1", "uuid-1")]).1 :=
  (guard_block_iff_noncompliant "10.0.0.2" "public"
    (fun _ => ["snmp-server host 10.0.0.1 community wrongcomm"])
    [("10.0.0.1", "uuid-1")] "10.0.0.1" "uuid-1" (by decide)).mpr (by decide)

/-- C4 (amended): whenever the corrective directive is non-blank and does
not coincide with any line of the emitted guard blocks (guard-opens,
removal directives, `#end` terminators, blank separators), the template's
line sequence contains exactly one occurrence of the directive, as its
final line, which is also its final non-empty line — however many devices
are non-compliant. -/
theorem directive_once_final (NEW : String) (dl : List (String × DeviceRecord))
    (h1 : NEW ∉ templateBlocks dl) (h2 : NEW ≠ "") :
    (templateBlocks dl ++ [NEW]).count NEW = 1 ∧
    (templateBlocks dl ++ [NEW]).getLast? = some NEW ∧
    ((templateBlocks dl ++ [NEW]).filter (fun l => decide (l ≠ ""))).getLast? = some NEW := by
  refine ⟨?_, List.getLast?_concat _, ?_⟩
  · rw [List.count_append, List.count_eq_zero.mpr h1]
    simp
  · rw [List.filter_append]
    have hone : [NEW].filter (fun l => decide (l ≠ "")) = [NEW] := by simp [h2]
    rw [hone, List.getLast?_concat]

/-- Witness for C4's amended statement at a concrete non-compliant device
and a genuine configuration-line directive. -/
theorem directive_once_final_witness :
    (templateBlocks [("10.0.0.1", ⟨"uuid-1", some ["snmp-server host 9.9.9.9 community c"]⟩)] ++
        ["snmp-server host 10.0.0.2 community public"]).count
        "snmp-server host 10.0.0.2 community public" = 1 ∧
    (templateBlocks [("10.0.0.1", ⟨"uuid-1", some ["snmp-server host 9.9.9.9 community c"]⟩)] ++
        ["snmp-server host 10.0.0.2 community public"]).getLast? =
      some "snmp-server host 10.0.0.2 community public" ∧
    ((templateBlocks [("10.0.0.1", ⟨"uuid-1", some ["snmp-server host 9.9.9.9 community c"]⟩)] ++
        ["snmp-server host 10.0.0.2 community public"]).filter
        (fun l => decide (l ≠ ""))).getLast? =
      some "snmp-server host 10.0.0.2 community public" :=
  directive_once_final "snmp-server host 10.0.0.2 community public"
    [("10.0.0.1", ⟨"uuid-1", some ["snmp-server host 9.9.9.9 community c"]⟩)]
    (by decide) (by decide)

/-- Counterexample to C4 as stated: with the corrective directive `#end`
and a single non-compliant device, the synthesized line sequence contains
two occurrences of the directive, not one — the guard terminator collides
with it. -/
theorem directive_count_counterexample :
    ¬ ((templateBlocks [("10.0.0.1", ⟨"uuid-1", some ["snmp-server host 9.9.9.9 community c"]⟩)] ++
        ["#end"]).count "#end" = 1) := by
  decide

end Dnac
